import Mathlib

/-!
Verification of the core adaptation loop of an AI rule-intelligence platform.

The development shallowly embeds, over exact rational arithmetic (`ℚ` in
place of Python floats), the following parts of the code base:

* the condition matcher `MCPClient.query_rules` (src/mcp_client.py);
* the per-city segment-weight state and the live feedback ingest
  `AdaptiveFeedbackSystem.process_feedback`, the confidence-band function
  `_calculate_confidence_adjustment`, the action-inference heuristic
  `_infer_action_from_output` and `adjust_confidence_score`
  (src/adaptive_feedback_system.py);
* the training-time weight update
  `CityAdaptiveEnv.update_city_weights_from_feedback`, the oracle reward
  `_calculate_reward` and the reward composition of `step`
  (src/rl_env/city_adaptive_env.py);
* the feedback replay `sync_feedback_from_mcp_to_env`
  (src/rl_env/train_city_adaptive_agent.py);
* the control flow of the `/feedback` endpoint (src/main.py) and of the
  RL-scoring section of `process_case_logic` (src/main_pipeline.py), with
  fallible effects (database write, reward-table write, policy-artifact
  load) made explicit as `Except` values and boolean outcome flags.
-/

namespace RuleIntel

/-! ## Condition matcher (src/mcp_client.py, `MCPClient.query_rules`) -/

/-- A numeric condition as stored in a rule's `conditions` mapping: either a
dict `{min, max}` (both keys optional: a missing `min` defaults to `0`, a
missing `max` to `float('inf')`, i.e. no upper test), or a bare number
compared for equality. -/
inductive NumCond where
  | range (lo hi : Option ℚ)
  | exact (x : ℚ)
deriving DecidableEq, Repr

/-- A location condition: a list (membership test) or a single string
(equality test). -/
inductive LocCond where
  | list (vs : List String)
  | single (v : String)
deriving DecidableEq, Repr

/-- A rule record: id, city, and the three condition keys the matcher
checks; `none` models absence of the key from the `conditions` dict. -/
structure Rule where
  id : String
  city : String
  road_width_m : Option NumCond
  plot_area_sqm : Option NumCond
  location : Option LocCond
deriving DecidableEq, Repr

/-- The case parameters supplied to the matcher; `none` models absence of
the key from the `parameters` dict. -/
structure CaseParams where
  road_width : Option ℚ
  plot_size : Option ℚ
  location : Option String
deriving DecidableEq, Repr

/-- The road-width check of `query_rules` (src/mcp_client.py lines 37-53):
performed only when both `road_width` is supplied and `road_width_m` is
present; a dict condition requires `min_width <= road_width <= max_width`
with `min` defaulting to `0` and `max` to infinity, a scalar condition
requires equality. -/
def check_road_width (parameters : CaseParams) (rule : Rule) : Bool :=
  match parameters.road_width, rule.road_width_m with
  | some road_width, some (NumCond.range lo hi) =>
      let min_width := lo.getD 0
      decide (min_width ≤ road_width) &&
        (match hi with
         | some max_width => decide (road_width ≤ max_width)
         | none => true)
  | some road_width, some (NumCond.exact x) => decide (x = road_width)
  | _, _ => true

/-- The plot-size check of `query_rules` (src/mcp_client.py lines 55-72),
against the `plot_area_sqm` condition; same logic as the road-width check. -/
def check_plot_size (parameters : CaseParams) (rule : Rule) : Bool :=
  match parameters.plot_size, rule.plot_area_sqm with
  | some plot_size, some (NumCond.range lo hi) =>
      let min_area := lo.getD 0
      decide (min_area ≤ plot_size) &&
        (match hi with
         | some max_area => decide (plot_size ≤ max_area)
         | none => true)
  | some plot_size, some (NumCond.exact x) => decide (x = plot_size)
  | _, _ => true

/-- The location check of `query_rules` (src/mcp_client.py lines 74-87):
list membership or exact string equality. -/
def check_location (parameters : CaseParams) (rule : Rule) : Bool :=
  match parameters.location, rule.location with
  | some loc, some (LocCond.list vs) => vs.contains loc
  | some loc, some (LocCond.single v) => decide (loc = v)
  | _, _ => true

/-- A rule matches when none of the three checked condition keys fails
(`matches` stays `True` through all three blocks of `query_rules`). -/
def rule_matches (parameters : CaseParams) (rule : Rule) : Bool :=
  check_road_width parameters rule && check_plot_size parameters rule &&
    check_location parameters rule

/-- One step of the de-duplicating dict comprehension
`{rule.id: rule for rule in all_matching_rules}`: Python dict insertion
keeps the first-seen key position and overwrites the value. -/
def upsert_by_id (acc : List (String × Rule)) (rule : Rule) : List (String × Rule) :=
  if acc.any (fun kv => kv.1 = rule.id) then
    acc.map (fun kv => if kv.1 = rule.id then (kv.1, rule) else kv)
  else acc ++ [(rule.id, rule)]

/-- `list({rule.id: rule for rule in rules}.values())` from the end of
`query_rules`. -/
def dedup_by_id (rules : List Rule) : List Rule :=
  (rules.foldl upsert_by_id []).map (fun kv => kv.2)

/-- `MCPClient.query_rules` (src/mcp_client.py lines 16-99): the rules of
the requested city (the SQL `ilike` is modelled as equality of the stored
and queried names, which agree in case in every stored rule), filtered by
`rule_matches`, then de-duplicated by rule id. -/
def query_rules (all_rules : List Rule) (city : String) (parameters : CaseParams) :
    List Rule :=
  let city_rules := all_rules.filter (fun r => r.city = city)
  let all_matching_rules := city_rules.filter (fun r => rule_matches parameters r)
  dedup_by_id all_matching_rules

/-! ## Segment weights (the per-city record of rl_env/city_reward_table.json) -/

/-- The fixed-length-3 `action_weights` list `[Low, Med, High FSI]`. -/
structure ActionWeights where
  w0 : ℚ
  w1 : ℚ
  w2 : ℚ
deriving DecidableEq, Repr

/-- Indexing `action_weights[action]`. -/
def ActionWeights.get (w : ActionWeights) (i : Fin 3) : ℚ :=
  if i.val = 0 then w.w0 else if i.val = 1 then w.w1 else w.w2

/-- Assignment `action_weights[action] = x`. -/
def ActionWeights.set (w : ActionWeights) (i : Fin 3) (x : ℚ) : ActionWeights :=
  if i.val = 0 then { w with w0 := x }
  else if i.val = 1 then { w with w1 := x }
  else { w with w2 := x }

/-- Pointwise map over the three entries (the list comprehension of the
renormalization step). -/
def ActionWeights.map (f : ℚ → ℚ) (w : ActionWeights) : ActionWeights :=
  ⟨f w.w0, f w.w1, f w.w2⟩

/-- `max(city_data["action_weights"])`. -/
def ActionWeights.maxWeight (w : ActionWeights) : ℚ :=
  max w.w0 (max w.w1 w.w2)

/-- One city's segment record, as initialized by both ingest paths. -/
structure SegmentWeights where
  base_reward : ℚ
  action_weights : ActionWeights
  positive_feedback_count : ℕ
  negative_feedback_count : ℕ
  total_cases : ℕ
deriving DecidableEq, Repr

/-- The defaults used on first feedback for a new city:
`{"base_reward": 1.0, "action_weights": [1.0, 1.0, 1.0],
"positive_feedback_count": 0, "negative_feedback_count": 0,
"total_cases": 0}`. -/
def defaultSegment : SegmentWeights :=
  { base_reward := 1
    action_weights := ⟨1, 1, 1⟩
    positive_feedback_count := 0
    negative_feedback_count := 0
    total_cases := 0 }

/-- Feedback polarity: the `feedback_type` strings relevant to the spec,
`"up"` (approve) and `"down"` (reject). -/
inductive Polarity where
  | up
  | down
deriving DecidableEq, Repr

/-- The reward table keyed by city name; list order models Python dict
insertion order. -/
abbrev SegmentTable := List (String × SegmentWeights)

/-- Dict key lookup `self.reward_weights[city]` / the `city in dict` test. -/
def lookupCity (tbl : SegmentTable) (city : String) : Option SegmentWeights :=
  match tbl with
  | [] => none
  | (c, s) :: rest => if c = city then some s else lookupCity rest city

/-- Dict key assignment: overwrite in place when the key exists, else
append (Python dict insertion order). -/
def setCity (tbl : SegmentTable) (city : String) (s : SegmentWeights) : SegmentTable :=
  if (lookupCity tbl city).isSome then
    tbl.map (fun kv => if kv.1 = city then (kv.1, s) else kv)
  else tbl ++ [(city, s)]

/-! ## Live feedback ingest (src/adaptive_feedback_system.py) -/

/-- The state-update core of `AdaptiveFeedbackSystem.process_feedback`
(src/adaptive_feedback_system.py lines 93-113): increment `total_cases`;
per polarity increment the matching counter and pick
`weight_delta = +0.05` (`"up"`) or `-0.03` (otherwise); then
`action_weights[action] = max(0.1, min(2.0, old_weight + weight_delta))`.
`base_reward` is not touched by this function. -/
def process_feedback_step (s : SegmentWeights) (feedback_type : Polarity)
    (action : Fin 3) : SegmentWeights :=
  let s1 := { s with total_cases := s.total_cases + 1 }
  let s2 :=
    match feedback_type with
    | Polarity.up =>
        { s1 with positive_feedback_count := s1.positive_feedback_count + 1 }
    | Polarity.down =>
        { s1 with negative_feedback_count := s1.negative_feedback_count + 1 }
  let weight_delta : ℚ :=
    match feedback_type with
    | Polarity.up => 5 / 100
    | Polarity.down => -(3 / 100)
  let old_weight := s2.action_weights.get action
  { s2 with
    action_weights :=
      s2.action_weights.set action (max (1 / 10) (min 2 (old_weight + weight_delta))) }

/-- `approval_rate = positive_feedback_count / max(1, total_cases)` as
computed in `process_feedback` and `get_city_statistics`. -/
def approval_rate_of (s : SegmentWeights) : ℚ :=
  (s.positive_feedback_count : ℚ) / ((max 1 s.total_cases : ℕ) : ℚ)

/-- `AdaptiveFeedbackSystem._calculate_confidence_adjustment`
(src/adaptive_feedback_system.py lines 167-181): the four multiplier
bands over the approval rate. -/
def calculate_confidence_adjustment (approval_rate : ℚ) : ℚ :=
  if 85 / 100 ≤ approval_rate then 11 / 10
  else if 70 / 100 ≤ approval_rate then 1
  else if 50 / 100 ≤ approval_rate then 9 / 10
  else 8 / 10

/-- `AdaptiveFeedbackSystem._infer_action_from_output`
(src/adaptive_feedback_system.py lines 146-165), as a function of
`len(output_report.get("rules_applied", []))`: more than 2 rules gives
action 2, 1-2 rules action 1, 0 rules action 0. -/
def infer_action_from_output (rules_applied_count : ℕ) : Fin 3 :=
  if 2 < rules_applied_count then 2
  else if 0 < rules_applied_count then 1
  else 0

/-- The explanation produced by `adjust_confidence_score`, with the source
strings abstracted to a tagged value carrying the numbers interpolated into
them: `noData` stands for the literal string
"No feedback data for this city yet"; `boosted`/`reduced`/`standard` stand
for the three f-strings built from the approval rate, the multiplier and
the case count. -/
inductive ConfidenceNote where
  | noData
  | boosted (rate multiplier : ℚ) (cases : ℕ)
  | reduced (rate multiplier : ℚ) (cases : ℕ)
  | standard (rate : ℚ)
deriving DecidableEq, Repr

/-- `AdaptiveFeedbackSystem.adjust_confidence_score`
(src/adaptive_feedback_system.py lines 212-255): an unknown city returns
the base confidence unchanged with the no-data explanation; a known city
applies `adjusted = min(1.0, base_confidence * multiplier)` with the
multiplier from the city's approval rate (via `get_city_statistics`).
The function only reads `self.reward_weights`, so the table is returned
unchanged in both branches. -/
def adjust_confidence_score (tbl : SegmentTable) (base_confidence : ℚ)
    (city : String) : (ℚ × ConfidenceNote) × SegmentTable :=
  match lookupCity tbl city with
  | none => ((base_confidence, ConfidenceNote.noData), tbl)
  | some s =>
      let approval_rate := approval_rate_of s
      let multiplier := calculate_confidence_adjustment approval_rate
      let adjusted_confidence := min 1 (base_confidence * multiplier)
      let note :=
        if 1 < multiplier then ConfidenceNote.boosted approval_rate multiplier s.total_cases
        else if multiplier < 1 then ConfidenceNote.reduced approval_rate multiplier s.total_cases
        else ConfidenceNote.standard approval_rate
      ((adjusted_confidence, note), tbl)

/-! ## Training-time weight update (src/rl_env/city_adaptive_env.py) -/

/-- The per-segment core of `CityAdaptiveEnv.update_city_weights_from_feedback`
(src/rl_env/city_adaptive_env.py lines 98-150): increment `total_cases`;
on `"up"` increment the positive counter and multiply
`action_weights[action]` by `1.1`, on `"down"` increment the negative
counter and multiply by `0.9`; if the maximum weight then exceeds `2.0`,
rescale all weights by `2.0 / max_weight`; finally, when
`positive_feedback_count + negative_feedback_count > 0`, set
`base_reward = 0.5 + approval_rate` with
`approval_rate = positive / (positive + negative)`. -/
def update_city_weights_step (s : SegmentWeights) (action : Fin 3)
    (feedback_type : Polarity) : SegmentWeights :=
  let s1 := { s with total_cases := s.total_cases + 1 }
  let s2 :=
    match feedback_type with
    | Polarity.up =>
        { s1 with
          positive_feedback_count := s1.positive_feedback_count + 1
          action_weights :=
            s1.action_weights.set action (s1.action_weights.get action * (11 / 10)) }
    | Polarity.down =>
        { s1 with
          negative_feedback_count := s1.negative_feedback_count + 1
          action_weights :=
            s1.action_weights.set action (s1.action_weights.get action * (9 / 10)) }
  let max_weight := s2.action_weights.maxWeight
  let s3 :=
    if 2 < max_weight then
      { s2 with action_weights := s2.action_weights.map (fun w => w / max_weight * 2) }
    else s2
  let total_feedback := s3.positive_feedback_count + s3.negative_feedback_count
  if 0 < total_feedback then
    { s3 with
      base_reward := 1 / 2 + (s3.positive_feedback_count : ℚ) / (total_feedback : ℚ) }
  else s3

/-- `CityAdaptiveEnv.update_city_weights_from_feedback` at the table level:
a city absent from the table is first created with `defaultSegment`, then
its record is updated in place. -/
def update_city_weights_from_feedback (tbl : SegmentTable) (city : String)
    (action : Fin 3) (feedback_type : Polarity) : SegmentTable :=
  let s := (lookupCity tbl city).getD defaultSegment
  setCity tbl city (update_city_weights_step s action feedback_type)

/-- The cities pre-seeded by `CityAdaptiveEnv.city_map`
(src/rl_env/city_adaptive_env.py lines 42-50). -/
def city_map_keys : List String :=
  ["Mumbai", "Pune", "Ahmedabad", "Nashik", "Delhi", "Bangalore"]

/-- The default reward table written by `CityAdaptiveEnv._load_reward_weights`
when no file exists: default weights for every city of `city_map`. -/
def initial_reward_table : SegmentTable :=
  city_map_keys.map (fun c => (c, defaultSegment))

/-! ## Feedback replay (src/rl_env/train_city_adaptive_agent.py) -/

/-- A stored feedback row as read back by the sync: city, polarity, and
the length of `full_output["rules_applied"]` (`none` when `full_output`
is missing or not a dict). -/
structure FeedbackRecord where
  city : String
  feedback_type : Polarity
  rules_applied_count : Option ℕ
deriving DecidableEq, Repr

/-- The action-extraction heuristic inside `sync_feedback_from_mcp_to_env`
(src/rl_env/train_city_adaptive_agent.py lines 82-92): default action 1;
when the output report is a dict, more than 2 applied rules gives 2 and
zero applied rules gives 0. -/
def sync_infer_action (rules_applied_count : Option ℕ) : Fin 3 :=
  match rules_applied_count with
  | none => 1
  | some n => if 2 < n then 2 else if n = 0 then 0 else 1

/-- `sync_feedback_from_mcp_to_env` (src/rl_env/train_city_adaptive_agent.py
lines 50-103): every stored feedback record is pushed, in storage order,
through `update_city_weights_from_feedback` on top of the environment's
current table — the table is not reset first. -/
def sync_feedback_from_mcp_to_env (tbl : SegmentTable)
    (records : List FeedbackRecord) : SegmentTable :=
  records.foldl
    (fun t fb =>
      update_city_weights_from_feedback t fb.city
        (sync_infer_action fb.rules_applied_count) fb.feedback_type)
    tbl

/-- Folding a sequence of live feedback events (polarity, inferred action)
through `process_feedback_step` from a given segment state. -/
def live_ingest_fold (s : SegmentWeights) (events : List (Polarity × Fin 3)) :
    SegmentWeights :=
  events.foldl (fun t e => process_feedback_step t e.1 e.2) s

/-- Folding the same event shape through the training-time update. -/
def env_update_fold (s : SegmentWeights) (events : List (Polarity × Fin 3)) :
    SegmentWeights :=
  events.foldl (fun t e => update_city_weights_step t e.2 e.1) s

/-! ## Reward function (src/rl_env/city_adaptive_env.py lines 173-239) -/

/-- The oracle's preferred action inside `CityAdaptiveEnv._calculate_reward`:
large plot, wide road and urban location give action 2; medium thresholds
give action 1; otherwise action 0. -/
def optimal_action_for (plot_size : ℚ) (location : ℕ) (road_width : ℚ) : ℕ :=
  if 2000 < plot_size ∧ 18 < road_width ∧ location = 0 then 2
  else if 1000 < plot_size ∧ 12 < road_width then 1
  else 0

/-- `CityAdaptiveEnv._calculate_reward` (lines 214-239): `10.0` on an exact
match with the optimal action, `2.0` one index step away, `-5.0` otherwise. -/
def calculate_reward (plot_size : ℚ) (location : ℕ) (road_width : ℚ)
    (action : Fin 3) : ℚ :=
  let optimal_action := optimal_action_for plot_size location road_width
  if (action : ℕ) = optimal_action then 10
  else if (((action : ℕ) : ℤ) - (optimal_action : ℤ)).natAbs = 1 then 2
  else -5

/-- The reward composition of `CityAdaptiveEnv.step` (lines 183-212):
`weighted_reward = reward * base_reward * action_weight`, with
`base_reward` and `action_weights` taken from
`city_reward_weights.get(current_city, defaults)`. -/
def step_weighted_reward (tbl : SegmentTable) (city : String) (plot_size : ℚ)
    (location : ℕ) (road_width : ℚ) (action : Fin 3) : ℚ :=
  let city_data := (lookupCity tbl city).getD defaultSegment
  let base_reward := city_data.base_reward
  let action_weight := city_data.action_weights.get action
  let reward := calculate_reward plot_size location road_width action
  reward * base_reward * action_weight

/-! ## The /feedback endpoint (src/main.py lines 230-279) -/

/-- `process_feedback` with its step-6 durable write
(`self._save_reward_weights()`, src/adaptive_feedback_system.py lines
40-43 and 121-123) made explicit: the in-memory update always happens,
then the write either succeeds (`write_ok = true`) or raises, in which
case the whole call raises instead of returning its success payload. -/
def process_feedback_fallible (s : SegmentWeights) (feedback_type : Polarity)
    (action : Fin 3) (write_ok : Bool) : Except String SegmentWeights :=
  let s' := process_feedback_step s feedback_type action
  if write_ok then Except.ok s' else Except.error "PersistenceWriteFailed"

/-- The response body of the `/feedback` endpoint: the `"status"` field,
the `"adaptation_summary"` (abstracted to the updated segment record it
reports, `none` in the degraded branch) and the optional `"note"`. -/
structure FeedbackResponse where
  status : String
  adaptation_summary : Option SegmentWeights
  note : Option String
deriving DecidableEq, Repr

/-- The control flow of `feedback_endpoint` (src/main.py lines 230-279):
if saving the feedback record through the MCP client raises, the outer
handler raises HTTP 500; otherwise the adaptive processing (including the
reward-table write) runs inside an inner try whose handler still returns
`{"status": "success"}` with a null adaptation summary and the note
"Feedback saved but adaptive processing unavailable". -/
def feedback_endpoint (mcp_save_ok : Bool) (s : SegmentWeights)
    (feedback_type : Polarity) (action : Fin 3) (weight_write_ok : Bool) :
    Except ℕ FeedbackResponse :=
  if mcp_save_ok = false then Except.error 500
  else
    match process_feedback_fallible s feedback_type action weight_write_ok with
    | Except.ok s' =>
        Except.ok { status := "success", adaptation_summary := some s', note := none }
    | Except.error _ =>
        Except.ok
          { status := "success"
            adaptation_summary := none
            note := some "Feedback saved but adaptive processing unavailable" }

/-! ## RL scoring in the case pipeline (src/main_pipeline.py lines 49-80,
src/main.py lines 154-163) -/

/-- The black-box policy artifact: `predict` gives the deterministic
arg-max action, `actionProb` the probability the policy's distribution
assigns to an action at the given features. -/
structure RLAgent where
  predictAction : ℚ → ℕ → ℚ → Fin 3
  actionProb : ℚ → ℕ → ℚ → Fin 3 → ℚ

/-- `startup_event`'s RL-agent loading (src/main.py lines 154-163): when
the model file is missing, `state.rl_agent` is set to `None` with only a
warning logged. -/
def startup_load_rl_agent (model_file_exists : Bool) (agent : RLAgent) :
    Option RLAgent :=
  if model_file_exists then some agent else none

/-- Section D and D2 of `process_case_logic` (src/main_pipeline.py lines
49-80): `system_state.rl_agent.predict(...)` is called with no guard, so a
`None` agent raises an `AttributeError` that propagates out of the
function (the try/except of section D2 only wraps the confidence
adjustment, which comes after the predict calls). On success the result
carries the chosen action, the raw confidence (the probability mass of the
chosen action) and the city-adjusted confidence. -/
def process_case_rl_section (rl_agent : Option RLAgent) (tbl : SegmentTable)
    (city : String) (plot_size : ℚ) (location : ℕ) (road_width : ℚ) :
    Except String (Fin 3 × ℚ × ℚ) :=
  match rl_agent with
  | none => Except.error "AttributeError: NoneType object has no attribute predict"
  | some agent =>
      let rl_optimal_action := agent.predictAction plot_size location road_width
      let base_confidence_score :=
        agent.actionProb plot_size location road_width rl_optimal_action
      let adjusted :=
        ((adjust_confidence_score tbl base_confidence_score city).1).1
      Except.ok (rl_optimal_action, base_confidence_score, adjusted)

/-! ## Concrete fixtures and invariant predicates used by the theorems -/

/-- The road-width condition of rule MUM-FSI-URBAN-R12-18
(src/populate_comprehensive_rules.py): the urban 12-18 m road band. -/
def mum_road_band_rule : Rule :=
  { id := "MUM-FSI-URBAN-R12-18"
    city := "Mumbai"
    road_width_m := some (NumCond.range (some 12) (some 18))
    plot_area_sqm := none
    location := none }

/-- The road-width condition of rule MUM-FSI-URBAN-R18-UP
(src/populate_comprehensive_rules.py): the adjacent band for roads of
18 m and above. -/
def mum_upper_road_rule : Rule :=
  { id := "MUM-FSI-URBAN-R18-UP"
    city := "Mumbai"
    road_width_m := some (NumCond.range (some 18) none)
    plot_area_sqm := none
    location := none }

/-- A case supplying only a road width of exactly 18 m, the shared
boundary of the two bands above. -/
def params_road_18 : CaseParams :=
  { road_width := some 18, plot_size := none, location := none }

/-- The segment state of the unseen city after its first event: approve,
inferred action 2. -/
def riverton_e1 : SegmentWeights :=
  process_feedback_step defaultSegment Polarity.up 2

/-- The segment state after the second event: reject, inferred action 2. -/
def riverton_e2 : SegmentWeights :=
  process_feedback_step riverton_e1 Polarity.down 2

/-- The one-record feedback history used against the replay procedure: a
single approve for Mumbai whose shown output applied 3 rules (inferred
action 2). -/
def replay_records : List FeedbackRecord :=
  [{ city := "Mumbai", feedback_type := Polarity.up, rules_applied_count := some 3 }]

/-- All three action weights lie in the clamp interval `[0.1, 2.0]`. -/
def weights_in_clamp_range (w : ActionWeights) : Prop :=
  ∀ i : Fin 3, 1 / 10 ≤ w.get i ∧ w.get i ≤ 2

/-- All three action weights are positive and at most `2.0`. -/
def weights_pos_le_two (w : ActionWeights) : Prop :=
  ∀ i : Fin 3, 0 < w.get i ∧ w.get i ≤ 2

/-! ## Helper lemmas -/

theorem ActionWeights.get_set (w : ActionWeights) (a i : Fin 3) (x : ℚ) :
    (w.set a x).get i = if i = a then x else w.get i := by
  fin_cases i <;> fin_cases a <;>
    simp [ActionWeights.get, ActionWeights.set]

theorem ActionWeights.get_map (w : ActionWeights) (f : ℚ → ℚ) (i : Fin 3) :
    (ActionWeights.map f w).get i = f (w.get i) := by
  fin_cases i <;> simp [ActionWeights.get, ActionWeights.map]

theorem ActionWeights.get_le_maxWeight (w : ActionWeights) (i : Fin 3) :
    w.get i ≤ w.maxWeight := by
  have h0 : w.w0 ≤ w.maxWeight := le_max_left _ _
  have h1 : w.w1 ≤ w.maxWeight := le_trans (le_max_left _ _) (le_max_right _ _)
  have h2 : w.w2 ≤ w.maxWeight := le_trans (le_max_right _ _) (le_max_right _ _)
  fin_cases i <;> norm_num [ActionWeights.get] <;> assumption

theorem aw_of_base_update (x : SegmentWeights) (c : Prop) [Decidable c] (b : ℚ) :
    (if c then { x with base_reward := b } else x).action_weights
      = x.action_weights := by
  split_ifs <;> rfl

theorem aw_of_aw_update (x : SegmentWeights) (c : Prop) [Decidable c] (w : ActionWeights) :
    (if c then { x with action_weights := w } else x).action_weights
      = if c then w else x.action_weights := by
  split_ifs <;> rfl

theorem normalized_weights_bounds (w : ActionWeights) (hpos : ∀ i, 0 < w.get i) :
    ∀ i, 0 < (if 2 < w.maxWeight then ActionWeights.map (fun x => x / w.maxWeight * 2) w
              else w).get i
      ∧ (if 2 < w.maxWeight then ActionWeights.map (fun x => x / w.maxWeight * 2) w
         else w).get i ≤ 2 := by
  intro i
  split_ifs with hmx
  · have hm : (0 : ℚ) < w.maxWeight := lt_trans (by norm_num) hmx
    have hle := w.get_le_maxWeight i
    rw [ActionWeights.get_map]
    constructor
    · have h1 : 0 < w.get i / w.maxWeight := div_pos (hpos i) hm
      linarith
    · have h1 : w.get i / w.maxWeight ≤ 1 := (div_le_one hm).mpr hle
      linarith
  · exact ⟨hpos i, le_trans (w.get_le_maxWeight i) (not_lt.mp hmx)⟩

theorem live_step_aw (s : SegmentWeights) (p : Polarity) (a : Fin 3) :
    ∃ d : ℚ, (process_feedback_step s p a).action_weights
      = s.action_weights.set a (max (1 / 10) (min 2 (s.action_weights.get a + d))) := by
  cases p
  · exact ⟨5 / 100, rfl⟩
  · exact ⟨-(3 / 100), rfl⟩

theorem set_scaled_pos (w : ActionWeights) (a : Fin 3) (c : ℚ) (hc : 0 < c)
    (hpos : ∀ i, 0 < w.get i) : ∀ j, 0 < (w.set a (w.get a * c)).get j := by
  intro j
  rw [ActionWeights.get_set]
  split_ifs
  · exact mul_pos (hpos a) hc
  · exact hpos j

theorem env_step_aw (s : SegmentWeights) (a : Fin 3) (p : Polarity) :
    ∃ c : ℚ, 0 < c ∧
      (update_city_weights_step s a p).action_weights
        = (if 2 < (s.action_weights.set a (s.action_weights.get a * c)).maxWeight then
             ActionWeights.map
               (fun x => x / (s.action_weights.set a (s.action_weights.get a * c)).maxWeight * 2)
               (s.action_weights.set a (s.action_weights.get a * c))
           else s.action_weights.set a (s.action_weights.get a * c)) := by
  cases p
  · refine ⟨11 / 10, by norm_num, ?_⟩
    simp only [update_city_weights_step, aw_of_base_update, aw_of_aw_update]
    split_ifs <;> rfl
  · refine ⟨9 / 10, by norm_num, ?_⟩
    simp only [update_city_weights_step, aw_of_base_update, aw_of_aw_update]
    split_ifs <;> rfl

theorem live_step_preserves_clamp (s : SegmentWeights) (p : Polarity) (a : Fin 3)
    (h : weights_in_clamp_range s.action_weights) :
    weights_in_clamp_range (process_feedback_step s p a).action_weights := by
  obtain ⟨d, haw⟩ := live_step_aw s p a
  rw [haw]
  intro i
  rw [ActionWeights.get_set]
  split_ifs
  · exact ⟨le_max_left _ _, max_le (by norm_num) (min_le_left _ _)⟩
  · exact h i

theorem env_step_preserves_pos_le_two (s : SegmentWeights) (a : Fin 3) (p : Polarity)
    (h : weights_pos_le_two s.action_weights) :
    weights_pos_le_two (update_city_weights_step s a p).action_weights := by
  obtain ⟨c, hc, haw⟩ := env_step_aw s a p
  rw [haw]
  exact fun i =>
    normalized_weights_bounds _ (set_scaled_pos s.action_weights a c hc (fun j => (h j).1)) i

theorem live_fold_preserves_clamp (events : List (Polarity × Fin 3)) :
    ∀ s : SegmentWeights, weights_in_clamp_range s.action_weights →
      weights_in_clamp_range (live_ingest_fold s events).action_weights := by
  induction events with
  | nil => intro s h; simpa [live_ingest_fold] using h
  | cons e rest ih =>
      intro s h
      simp only [live_ingest_fold, List.foldl_cons] at ih ⊢
      exact ih _ (live_step_preserves_clamp s e.1 e.2 h)

theorem env_fold_preserves_pos_le_two (events : List (Polarity × Fin 3)) :
    ∀ s : SegmentWeights, weights_pos_le_two s.action_weights →
      weights_pos_le_two (env_update_fold s events).action_weights := by
  induction events with
  | nil => intro s h; simpa [env_update_fold] using h
  | cons e rest ih =>
      intro s h
      simp only [env_update_fold, List.foldl_cons] at ih ⊢
      exact ih _ (env_step_preserves_pos_le_two s e.2 e.1 h)

theorem default_weights_in_clamp_range :
    weights_in_clamp_range defaultSegment.action_weights := by
  intro i
  fin_cases i <;> norm_num [ActionWeights.get, defaultSegment]

theorem default_weights_pos_le_two :
    weights_pos_le_two defaultSegment.action_weights := by
  intro i
  fin_cases i <;> norm_num [ActionWeights.get, defaultSegment]

/-! ## Claim C1: boundary inclusivity of the numeric range conditions -/

/-- C1, counterexample: the claim says a rule with a road-width range
`{min, max}` is kept only when `min <= v < max` (upper bound exclusive),
so at `v = max` the rule must be dropped. In the code `query_rules` keeps
the Mumbai 12-18 m road band for a case with road width exactly 18, even
though `18 < 18` is false. -/
theorem c1_road_upper_bound_counterexample :
    query_rules [mum_road_band_rule] "Mumbai" params_road_18 = [mum_road_band_rule]
      ∧ ¬ ((18 : ℚ) < 18) := by
  constructor
  · norm_num [query_rules, dedup_by_id, upsert_by_id, List.filter, rule_matches,
      check_road_width, check_plot_size, check_location, mum_road_band_rule,
      params_road_18]
  · norm_num

/-- C1, amended: both numeric-range families of the matcher are inclusive
at both ends — a rule with range `{min, max}` on the road-width key is
kept exactly when `min <= v <= max`, and likewise for the plot-area key;
a value exactly at `min` therefore matches, and a case value exactly at
the shared boundary of two adjacent road-width bands is kept for both
bands (here: road width 18 against the 12-18 band and the 18-up band). -/
theorem c1_numeric_ranges_both_inclusive (mn mx v : ℚ) (rid rcity : String) :
    (rule_matches { road_width := some v, plot_size := none, location := none }
        { id := rid, city := rcity
          road_width_m := some (NumCond.range (some mn) (some mx))
          plot_area_sqm := none, location := none } = true
      ↔ mn ≤ v ∧ v ≤ mx)
    ∧ (rule_matches { road_width := none, plot_size := some v, location := none }
        { id := rid, city := rcity, road_width_m := none
          plot_area_sqm := some (NumCond.range (some mn) (some mx))
          location := none } = true
      ↔ mn ≤ v ∧ v ≤ mx)
    ∧ query_rules [mum_road_band_rule, mum_upper_road_rule] "Mumbai" params_road_18
        = [mum_road_band_rule, mum_upper_road_rule] := by
  refine ⟨?_, ?_, ?_⟩
  · simp [rule_matches, check_road_width, check_plot_size, check_location]
  · simp [rule_matches, check_road_width, check_plot_size, check_location]
  · norm_num [query_rules, dedup_by_id, upsert_by_id, List.filter, rule_matches,
      check_road_width, check_plot_size, check_location, mum_road_band_rule,
      mum_upper_road_rule, params_road_18]
    decide

/-! ## Claim C2: the live ingest and the replay use different update logic -/

/-- C2: the live update (`process_feedback`) and the replay update
(`sync_feedback_from_mcp_to_env` via `update_city_weights_from_feedback`)
are not the same function of (prior state, event). On a fresh segment and
one approve event with inferred action 2, the live path adds `+0.05`
(weight `1.05`) and leaves `base_reward` at `1.0`, while the replay path
multiplies by `1.1` (weight `1.1`) and recomputes `base_reward` to `1.5`;
the resulting states differ. -/
theorem c2_live_and_replay_updates_differ :
    (process_feedback_step defaultSegment Polarity.up 2).action_weights.w2 = 21 / 20
    ∧ (update_city_weights_step defaultSegment 2 Polarity.up).action_weights.w2 = 11 / 10
    ∧ (process_feedback_step defaultSegment Polarity.up 2).base_reward = 1
    ∧ (update_city_weights_step defaultSegment 2 Polarity.up).base_reward = 3 / 2
    ∧ process_feedback_step defaultSegment Polarity.up 2
        ≠ update_city_weights_step defaultSegment 2 Polarity.up := by
  refine ⟨?_, ?_, ?_, ?_, ?_⟩ <;>
    norm_num [process_feedback_step, update_city_weights_step, defaultSegment,
      ActionWeights.get, ActionWeights.set, ActionWeights.map, ActionWeights.maxWeight,
      min_def, max_def, SegmentWeights.mk.injEq, ActionWeights.mk.injEq]

/-! ## Claim C3: the replay is not idempotent (it never resets the table) -/

/-- C3: `sync_feedback_from_mcp_to_env` does not start from default
weights — it folds the stored events on top of the environment's current
table. Replaying a one-approve history once from the default table gives
Mumbai action weight `1.1`; replaying the same unchanged history a second
time multiplies again and gives `1.21`, so the two invocations produce
different tables. -/
theorem c3_replay_twice_differs :
    (lookupCity (sync_feedback_from_mcp_to_env initial_reward_table replay_records)
        "Mumbai").map (fun s => s.action_weights.w2) = some (11 / 10)
    ∧ (lookupCity
        (sync_feedback_from_mcp_to_env
          (sync_feedback_from_mcp_to_env initial_reward_table replay_records)
          replay_records)
        "Mumbai").map (fun s => s.action_weights.w2) = some (121 / 100)
    ∧ sync_feedback_from_mcp_to_env
        (sync_feedback_from_mcp_to_env initial_reward_table replay_records)
        replay_records
      ≠ sync_feedback_from_mcp_to_env initial_reward_table replay_records := by
  refine ⟨?_, ?_, ?_⟩
  · norm_num [sync_feedback_from_mcp_to_env, replay_records, sync_infer_action,
      update_city_weights_from_feedback, update_city_weights_step, initial_reward_table,
      city_map_keys, lookupCity, setCity, defaultSegment, ActionWeights.get,
      ActionWeights.set, ActionWeights.map, ActionWeights.maxWeight, max_def]
  · norm_num [sync_feedback_from_mcp_to_env, replay_records, sync_infer_action,
      update_city_weights_from_feedback, update_city_weights_step, initial_reward_table,
      city_map_keys, lookupCity, setCity, defaultSegment, ActionWeights.get,
      ActionWeights.set, ActionWeights.map, ActionWeights.maxWeight, max_def]
  · intro hEq
    have h2 := congrArg
      (fun t => (lookupCity t "Mumbai").map (fun s => s.action_weights.w2)) hEq
    norm_num [sync_feedback_from_mcp_to_env, replay_records, sync_infer_action,
      update_city_weights_from_feedback, update_city_weights_step, initial_reward_table,
      city_map_keys, lookupCity, setCity, defaultSegment, ActionWeights.get,
      ActionWeights.set, ActionWeights.map, ActionWeights.maxWeight, max_def] at h2

/-! ## Claim C4: the base-reward invariant holds only on the training path -/

theorem env_step_base_up (s : SegmentWeights) (a : Fin 3) :
    (update_city_weights_step s a Polarity.up).base_reward
      = 1 / 2 + ((s.positive_feedback_count + 1 : ℕ) : ℚ)
          / ((s.positive_feedback_count + 1 + s.negative_feedback_count : ℕ) : ℚ) := by
  simp only [update_city_weights_step]
  split_ifs <;>
    first
      | rfl
      | (exfalso; rename_i hcond; simp at hcond; try omega)

theorem env_step_base_down (s : SegmentWeights) (a : Fin 3) :
    (update_city_weights_step s a Polarity.down).base_reward
      = 1 / 2 + (s.positive_feedback_count : ℚ)
          / ((s.positive_feedback_count + (s.negative_feedback_count + 1) : ℕ) : ℚ) := by
  simp only [update_city_weights_step]
  split_ifs <;>
    first
      | rfl
      | (exfalso; rename_i hcond; simp at hcond; try omega)

/-- C4, counterexample: the claim says that after every ingested feedback
event `base_reward = 0.5 + approval_rate`. After one approve on a fresh
segment through the live ingest path (`process_feedback`), the approval
rate is `1` but `base_reward` is still `1.0`, not `1.5`: the live path
never touches `base_reward`. -/
theorem c4_live_base_reward_counterexample :
    (process_feedback_step defaultSegment Polarity.up 2).base_reward = 1
    ∧ approval_rate_of (process_feedback_step defaultSegment Polarity.up 2) = 1
    ∧ (1 : ℚ) ≠ 1 / 2 + 1 := by
  refine ⟨rfl, ?_, by norm_num⟩
  norm_num [process_feedback_step, defaultSegment, approval_rate_of,
    ActionWeights.get, ActionWeights.set]

/-- C4, amended: `base_reward` starts at `1.0` and is changed only by the
training-env update path, which after every event sets it to
`0.5 + positive/(positive+negative)`, so on that path it lies in
`[0.5, 1.5]`; the case-level ingest path (`process_feedback`) never
updates `base_reward` at all — after its events `base_reward` keeps its
prior value instead of `0.5 + approval_rate`. -/
theorem c4_base_reward_amended :
    (∀ (s : SegmentWeights) (p : Polarity) (a : Fin 3),
        (process_feedback_step s p a).base_reward = s.base_reward)
    ∧ (∀ (s : SegmentWeights) (a : Fin 3),
        (update_city_weights_step s a Polarity.up).base_reward
          = 1 / 2 + ((s.positive_feedback_count + 1 : ℕ) : ℚ)
              / ((s.positive_feedback_count + 1 + s.negative_feedback_count : ℕ) : ℚ)
        ∧ (update_city_weights_step s a Polarity.down).base_reward
          = 1 / 2 + (s.positive_feedback_count : ℚ)
              / ((s.positive_feedback_count + (s.negative_feedback_count + 1) : ℕ) : ℚ))
    ∧ (∀ (s : SegmentWeights) (a : Fin 3) (p : Polarity),
        1 / 2 ≤ (update_city_weights_step s a p).base_reward
        ∧ (update_city_weights_step s a p).base_reward ≤ 3 / 2) := by
  refine ⟨fun s p a => by cases p <;> rfl,
    fun s a => ⟨env_step_base_up s a, env_step_base_down s a⟩,
    fun s a p => ?_⟩
  cases p
  · rw [env_step_base_up]
    have hd : (0 : ℚ) < ((s.positive_feedback_count + 1 + s.negative_feedback_count : ℕ) : ℚ) :=
      by exact_mod_cast Nat.pos_of_ne_zero (by omega)
    have hn : ((s.positive_feedback_count + 1 : ℕ) : ℚ)
        ≤ ((s.positive_feedback_count + 1 + s.negative_feedback_count : ℕ) : ℚ) :=
      by exact_mod_cast Nat.le_add_right _ _
    have h1 : ((s.positive_feedback_count + 1 : ℕ) : ℚ)
        / ((s.positive_feedback_count + 1 + s.negative_feedback_count : ℕ) : ℚ) ≤ 1 :=
      (div_le_one hd).mpr hn
    have h0 : (0 : ℚ) ≤ ((s.positive_feedback_count + 1 : ℕ) : ℚ)
        / ((s.positive_feedback_count + 1 + s.negative_feedback_count : ℕ) : ℚ) :=
      div_nonneg (by positivity) (le_of_lt hd)
    constructor <;> linarith
  · rw [env_step_base_down]
    have hd : (0 : ℚ) < ((s.positive_feedback_count + (s.negative_feedback_count + 1) : ℕ) : ℚ) :=
      by exact_mod_cast Nat.pos_of_ne_zero (by omega)
    have hn : (s.positive_feedback_count : ℚ)
        ≤ ((s.positive_feedback_count + (s.negative_feedback_count + 1) : ℕ) : ℚ) :=
      by exact_mod_cast Nat.le_add_right _ _
    have h1 : (s.positive_feedback_count : ℚ)
        / ((s.positive_feedback_count + (s.negative_feedback_count + 1) : ℕ) : ℚ) ≤ 1 :=
      (div_le_one hd).mpr hn
    have h0 : (0 : ℚ) ≤ (s.positive_feedback_count : ℚ)
        / ((s.positive_feedback_count + (s.negative_feedback_count + 1) : ℕ) : ℚ) :=
      div_nonneg (by positivity) (le_of_lt hd)
    constructor <;> linarith

/-! ## Claim C5: the concrete two-event run on a fresh segment -/

/-- C5: starting unseen, one approve with inferred action 2 gives weights
`[1.0, 1.0, 1.05]`, counts `(1, 0)` of `1`, approval rate `1` and
multiplier `1.10`; a following reject on action 2 gives weights
`[1.0, 1.0, 1.02]`, counts `(1, 1)` of `2`, approval rate `0.5` and
multiplier `0.90`; adjusting a raw confidence `0.80` for that segment then
returns `min(1.0, 0.80 * 0.90) = 0.72`. -/
theorem c5_concrete_two_event_run :
    riverton_e1.action_weights = ⟨1, 1, 21 / 20⟩
    ∧ riverton_e1.positive_feedback_count = 1
    ∧ riverton_e1.total_cases = 1
    ∧ approval_rate_of riverton_e1 = 1
    ∧ calculate_confidence_adjustment (approval_rate_of riverton_e1) = 11 / 10
    ∧ riverton_e2.action_weights = ⟨1, 1, 51 / 50⟩
    ∧ riverton_e2.negative_feedback_count = 1
    ∧ riverton_e2.total_cases = 2
    ∧ approval_rate_of riverton_e2 = 1 / 2
    ∧ calculate_confidence_adjustment (approval_rate_of riverton_e2) = 9 / 10
    ∧ ((adjust_confidence_score [("Riverton", riverton_e2)] (4 / 5) "Riverton").1).1
        = 18 / 25 := by
  refine ⟨?_, rfl, rfl, ?_, ?_, ?_, rfl, rfl, ?_, ?_, ?_⟩ <;>
    norm_num [riverton_e1, riverton_e2, process_feedback_step, defaultSegment,
      ActionWeights.set, ActionWeights.get, approval_rate_of,
      calculate_confidence_adjustment, adjust_confidence_score, lookupCity,
      min_def, max_def]

/-! ## Claim C6: the composed training reward and its oracle -/

/-- C6: the training reward of `step` is
`oracle_reward * base_reward(city) * action_weight(city, action)`: the
oracle component is `10` when the action equals the oracle's preferred
action, `2` when it is one index step away, `-5` otherwise, and the
preferred action is `2` when `plot_size > 2000`, `road_width > 18` and
the location code is `0` (urban), else `1` when `plot_size > 1000` and
`road_width > 12`, else `0`. -/
theorem c6_reward_composition (tbl : SegmentTable) (city : String) (plot_size : ℚ)
    (location : ℕ) (road_width : ℚ) (action : Fin 3) :
    ((action : ℕ) = optimal_action_for plot_size location road_width →
      step_weighted_reward tbl city plot_size location road_width action
        = 10 * ((lookupCity tbl city).getD defaultSegment).base_reward
            * ((lookupCity tbl city).getD defaultSegment).action_weights.get action)
    ∧ ((((action : ℕ) : ℤ) - (optimal_action_for plot_size location road_width : ℤ)).natAbs
          = 1 →
      step_weighted_reward tbl city plot_size location road_width action
        = 2 * ((lookupCity tbl city).getD defaultSegment).base_reward
            * ((lookupCity tbl city).getD defaultSegment).action_weights.get action)
    ∧ ((action : ℕ) ≠ optimal_action_for plot_size location road_width →
      (((action : ℕ) : ℤ) - (optimal_action_for plot_size location road_width : ℤ)).natAbs
          ≠ 1 →
      step_weighted_reward tbl city plot_size location road_width action
        = -5 * ((lookupCity tbl city).getD defaultSegment).base_reward
            * ((lookupCity tbl city).getD defaultSegment).action_weights.get action)
    ∧ optimal_action_for plot_size location road_width
        = (if 2000 < plot_size ∧ 18 < road_width ∧ location = 0 then 2
           else if 1000 < plot_size ∧ 12 < road_width then 1
           else 0) := by
  refine ⟨?_, ?_, ?_, rfl⟩
  · intro h
    simp only [step_weighted_reward, calculate_reward, if_pos h]
  · intro h
    have hne : ¬ ((action : ℕ) = optimal_action_for plot_size location road_width) := by
      intro he
      rw [he] at h
      simp at h
    simp only [step_weighted_reward, calculate_reward, if_neg hne, if_pos h]
  · intro h1 h2
    simp only [step_weighted_reward, calculate_reward, if_neg h1, if_neg h2]

/-- C6, witness: with an empty reward table (so default base reward `1`
and action weight `1`), a 2500 sqm urban plot on a 20 m road has oracle
action 2, and choosing action 2 earns reward `10`. -/
theorem c6_reward_composition_witness :
    ((2 : Fin 3) : ℕ) = optimal_action_for 2500 0 20
    ∧ step_weighted_reward [] "Mumbai" 2500 0 20 2 = 10 := by
  have hopt : ((2 : Fin 3) : ℕ) = optimal_action_for 2500 0 20 := by
    rw [show ((2 : Fin 3) : ℕ) = 2 from rfl]
    norm_num [optimal_action_for]
  refine ⟨hopt, ?_⟩
  have h := (c6_reward_composition [] "Mumbai" 2500 0 20 2).1 hopt
  rw [h]
  norm_num [lookupCity, defaultSegment, ActionWeights.get]

/-! ## Claim C7: weight clamping holds on the live path, not the training path -/

/-- C7, counterexample: the claim says that also under training-time
updates repeated rejections never push a weight below `0.1`. The
training-time update multiplies by `0.9` per rejection and only
renormalizes when the maximum exceeds `2.0`, so 22 rejections of action 0
on a fresh segment leave weight `0.9^22 < 0.1`. -/
theorem c7_env_rejections_below_floor :
    (env_update_fold defaultSegment
        (List.replicate 22 (Polarity.down, (0 : Fin 3)))).action_weights.w0 < 1 / 10 := by
  norm_num [env_update_fold, List.replicate, update_city_weights_step,
    ActionWeights.set, ActionWeights.get, ActionWeights.map, ActionWeights.maxWeight,
    defaultSegment, max_def]

/-- C7, amended: under the case-level feedback path every action weight
stays within `[0.1, 2.0]` for every event sequence; under the
training-time path every action weight stays positive and never exceeds
`2.0`, but repeated rejections can push a weight below `0.1`. -/
theorem c7_weight_bounds_amended :
    (∀ events : List (Polarity × Fin 3),
      weights_in_clamp_range (live_ingest_fold defaultSegment events).action_weights)
    ∧ (∀ events : List (Polarity × Fin 3),
      weights_pos_le_two (env_update_fold defaultSegment events).action_weights) :=
  ⟨fun events => live_fold_preserves_clamp events defaultSegment default_weights_in_clamp_range,
   fun events => env_fold_preserves_pos_le_two events defaultSegment default_weights_pos_le_two⟩

/-! ## Claim C8: the endpoint reports success even when the weight write fails -/

/-- C8, counterexample: the claim says a failed durable write of the
weight table makes the call return failure. In the code, when the MCP
feedback-record save succeeds but the adaptive processing (including the
reward-table write) raises, the inner handler still returns
`{"status": "success"}` with a null adaptation summary. -/
theorem c8_success_despite_write_failure :
    feedback_endpoint true defaultSegment Polarity.up 2 false
      = Except.ok
          { status := "success"
            adaptation_summary := none
            note := some "Feedback saved but adaptive processing unavailable" } := rfl

/-- C8, amended: the endpoint reports failure (HTTP 500) exactly when
saving the feedback record to the MCP database fails; when the record
save succeeds, the endpoint reports success whether or not the
segment-weight write succeeded — a failed weight write only degrades the
response to a null adaptation summary with an explanatory note. -/
theorem c8_endpoint_status_amended (mcp_save_ok weight_write_ok : Bool)
    (s : SegmentWeights) (p : Polarity) (a : Fin 3) :
    (feedback_endpoint mcp_save_ok s p a weight_write_ok = Except.error 500
      ↔ mcp_save_ok = false)
    ∧ (mcp_save_ok = true → weight_write_ok = true →
        feedback_endpoint mcp_save_ok s p a weight_write_ok
          = Except.ok
              { status := "success"
                adaptation_summary := some (process_feedback_step s p a)
                note := none })
    ∧ (mcp_save_ok = true → weight_write_ok = false →
        feedback_endpoint mcp_save_ok s p a weight_write_ok
          = Except.ok
              { status := "success"
                adaptation_summary := none
                note := some "Feedback saved but adaptive processing unavailable" }) := by
  cases mcp_save_ok <;> cases weight_write_ok <;>
    simp [feedback_endpoint, process_feedback_fallible]

/-- C8, witness: with both writes succeeding the endpoint returns success
with the updated segment in the adaptation summary. -/
theorem c8_endpoint_status_witness :
    feedback_endpoint true defaultSegment Polarity.up 2 true
      = Except.ok
          { status := "success"
            adaptation_summary := some (process_feedback_step defaultSegment Polarity.up 2)
            note := none } :=
  (c8_endpoint_status_amended true true defaultSegment Polarity.up 2).2.1 rfl rfl

/-! ## Claim C9: a missing policy artifact raises instead of falling back -/

/-- C9: when the model file is missing at startup the agent is `None`,
and `process_case_logic` then fails with the propagated attribute error —
it does not fall back to a lowest-intensity action with minimum
confidence, and case processing returns no result. -/
theorem c9_missing_policy_unhandled (agent : RLAgent) (tbl : SegmentTable)
    (city : String) (plot_size : ℚ) (location : ℕ) (road_width : ℚ) :
    startup_load_rl_agent false agent = none
    ∧ process_case_rl_section (startup_load_rl_agent false agent) tbl city
        plot_size location road_width
      = Except.error "AttributeError: NoneType object has no attribute predict" :=
  ⟨rfl, rfl⟩

/-! ## Claim C10: unknown city leaves the confidence untouched -/

/-- C10: for a city with no entry in the segment weight table,
`adjust_confidence_score` returns the base confidence unchanged (in
particular it does not apply the `0.8` multiplier of the lowest band)
together with the no-data explanation, and the table is left exactly as
it was — no segment entry is created. -/
theorem c10_unknown_city_returns_base (tbl : SegmentTable) (base_confidence : ℚ)
    (city : String) (h : lookupCity tbl city = none) :
    adjust_confidence_score tbl base_confidence city
      = ((base_confidence, ConfidenceNote.noData), tbl) := by
  simp [adjust_confidence_score, h]

/-- C10, witness: a table holding only Mumbai, queried for Riverton. -/
theorem c10_unknown_city_witness :
    lookupCity [("Mumbai", defaultSegment)] "Riverton" = none
    ∧ adjust_confidence_score [("Mumbai", defaultSegment)] (4 / 5) "Riverton"
      = ((4 / 5, ConfidenceNote.noData), [("Mumbai", defaultSegment)]) := by
  have h : lookupCity [("Mumbai", defaultSegment)] "Riverton" = none := by
    simp [lookupCity]
  exact ⟨h, c10_unknown_city_returns_base _ _ _ h⟩

end RuleIntel
